import Mathlib

/-!
# Formal model of the random-walk simulation engine

Shallow embedding of the separated simulation engine from the notebook
`02_separation.ipynb`: the `PeriodicSpace` domain, the `Particles` ensemble
and the `run_random_walk` driver.  Machine floats are modelled as rationals
(`ℚ`), numpy arrays as `List ℚ`, and the numpy `RandomState` generator as a
deterministic draw stream together with a position counter.  Operations that
can raise a Python exception are modelled in `Except String`.
-/

/-- The spatial domain of `02_separation.ipynb`: a periodic rectangular box
with extents `length_x`, `length_y` (`PeriodicSpace.__init__` stores both). -/
structure PeriodicSpace where
  length_x : ℚ
  length_y : ℚ
deriving Repr, DecidableEq

/-- `np.mod x L` for rational arguments: `x - L * ⌊x / L⌋`.  For `L ≠ 0` this
is exactly numpy's floored modulo (result has the sign of `L`); numpy's
`np.mod(x, 0)` yields NaN (with a warning, no exception), which has no
rational representative — here division by zero makes the term collapse to
`x`, and no theorem below evaluates a modulus at `L = 0`. -/
def np_mod (x L : ℚ) : ℚ := x - L * ⌊x / L⌋

/-- `PeriodicSpace.get_sizes`: returns `(length_x, length_y)`. -/
def PeriodicSpace.get_sizes (s : PeriodicSpace) : ℚ × ℚ :=
  (s.length_x, s.length_y)

/-- `PeriodicSpace.normalize_positions`: element-wise
`(np.mod(x, length_x), np.mod(y, length_y))`. -/
def PeriodicSpace.normalize_positions (s : PeriodicSpace) (x y : List ℚ) :
    List ℚ × List ℚ :=
  (x.map (fun v => np_mod v s.length_x), y.map (fun v => np_mod v s.length_y))

/-- Model of `np.random.RandomState`: a fixed stream of draws (`seq`,
determined by the seed / OS entropy at construction) plus how many draws
were already consumed (`counter`, the mutable generator state). -/
structure RNG where
  seq : ℕ → ℚ
  counter : ℕ

/-- `rng.normal(size=n)`: the next `n` values of the stream, together with
the advanced generator. -/
def RNG.normal (r : RNG) (n : ℕ) : List ℚ × RNG :=
  ((List.range n).map (fun i => r.seq (r.counter + i)), ⟨r.seq, r.counter + n⟩)

/-- The particle ensemble of `02_separation.ipynb`.  `x` and `y` are
`Option`s because `Particles.__init__` defaults them to `None`;
`rng` is owned by the ensemble (in the notebook it is a shared reference,
but the engine is single-threaded so explicit state passing is faithful). -/
structure Particles where
  rng : RNG
  space : PeriodicSpace
  x : Option (List ℚ)
  y : Option (List ℚ)
  step_length : ℚ
  steps_done : ℕ

/-- `Particles.__init__` with all arguments supplied: stores the arguments
unchanged (no validation of any kind) and sets `steps_done = 0`. -/
def Particles.init (rng : RNG) (space : PeriodicSpace)
    (x y : Option (List ℚ)) (step_length : ℚ) : Particles :=
  ⟨rng, space, x, y, step_length, 0⟩

/-- `Particles()` with every argument left at its default: the default
`space` is `PeriodicSpace()` (extents 10 and 20), the positions default to
`None`, and `step_length` defaults to `0.5`.  The default `rng` is an
unseeded `np.random.RandomState()`, modelled by the ambient stream `rng`. -/
def Particles.initDefault (rng : RNG) : Particles :=
  Particles.init rng ⟨10, 20⟩ none none (1/2)

/-- `Particles.move`: draw `len x` normals, scale by `step_length` and add to
`x`; then the same for `y` (the second draw continues the generator state);
normalize both through the space; increment `steps_done`.  With `x` or `y`
still `None`, `self.x += ...` raises (`None` has no `shape`). -/
def Particles.move (p : Particles) : Except String Particles :=
  match p.x, p.y with
  | some xs, some ys =>
    let dx := (p.rng.normal xs.length).1
    let rng1 := (p.rng.normal xs.length).2
    let xs1 := List.zipWith (fun a d => a + p.step_length * d) xs dx
    let dy := (rng1.normal ys.length).1
    let rng2 := (rng1.normal ys.length).2
    let ys1 := List.zipWith (fun a d => a + p.step_length * d) ys dy
    let nrm := p.space.normalize_positions xs1 ys1
    .ok ⟨rng2, p.space, some nrm.1, some nrm.2, p.step_length, p.steps_done + 1⟩
  | _, _ => .error "AttributeError: NoneType object has no attribute shape"

/-- `k` successive calls of `Particles.move`. -/
def Particles.moveN : ℕ → Particles → Except String Particles
  | 0, p => .ok p
  | Nat.succ k, p => do
    let p1 ← p.move
    Particles.moveN k p1

/-- `arr.mean()` for a rational list: sum divided by length (numpy returns
NaN on an empty array; here the quotient collapses to `0`). -/
def listMean (xs : List ℚ) : ℚ := xs.sum / (xs.length : ℚ)

/-- `arr.var()` for a rational list: numpy's default `ddof=0` variance, the
mean of the squared deviations from the mean. -/
def np_var (xs : List ℚ) : ℚ :=
  listMean (xs.map (fun v => (v - listMean xs) ^ 2))

/-- The per-axis spread exactly as the specification words it: the mean
squared deviation of the coordinates from their arithmetic mean (the
center-of-mass component), i.e. the population variance (`ddof = 0`).
This definition follows the spec's words, not the code; it is compared
with the implementation's `arr.var()` below. -/
def popVariance (xs : List ℚ) : ℚ :=
  (∑ i ∈ Finset.range xs.length, (xs.getD i 0 - listMean xs) ^ 2) / (xs.length : ℚ)

/-- `Particles.center_of_mass`: `(x.mean(), y.mean())`; raises on `None`. -/
def Particles.center_of_mass (p : Particles) : Except String (ℚ × ℚ) :=
  match p.x, p.y with
  | some xs, some ys => .ok (listMean xs, listMean ys)
  | _, _ => .error "AttributeError: NoneType object has no attribute mean"

/-- `Particles.moment_of_inertia`: `x.var() + y.var()`; raises on `None`. -/
def Particles.moment_of_inertia (p : Particles) : Except String ℚ :=
  match p.x, p.y with
  | some xs, some ys => .ok (np_var xs + np_var ys)
  | _, _ => .error "AttributeError: NoneType object has no attribute var"

/-- One row of `Particles.diagnostics`: the index is `steps_done`, the
columns are the two center-of-mass components and the moment of inertia. -/
structure DiagnosticRecord where
  step : ℕ
  center_of_mass_x : ℚ
  center_of_mass_y : ℚ
  moment_of_inertia : ℚ
deriving Repr, DecidableEq

/-- `Particles.diagnostics`: bundle `steps_done`, `center_of_mass()` and
`moment_of_inertia()` into one record; no state change. -/
def Particles.diagnostics (p : Particles) : Except String DiagnosticRecord := do
  let com ← p.center_of_mass
  let mi ← p.moment_of_inertia
  .ok ⟨p.steps_done, com.1, com.2, mi⟩

/-- `Particles.positions`: `pd.DataFrame({"x": x, "y": y})`, a snapshot of
the paired positions; pandas raises `ValueError` when the two columns have
different lengths, and the attribute access raises on `None`. -/
def Particles.positions (p : Particles) : Except String (List (ℚ × ℚ)) :=
  match p.x, p.y with
  | some xs, some ys =>
    if xs.length = ys.length then .ok (xs.zip ys)
    else .error "ValueError: arrays must all be same length"
  | _, _ => .error "AttributeError: NoneType object is not array-like"

/-- `np.ones((n,))` for a Python integer `n`: raises `ValueError` for a
negative dimension, otherwise a list of `n` ones. -/
def np_ones (n : ℤ) : Except String (List ℚ) :=
  if n < 0 then .error "ValueError: negative dimensions are not allowed"
  else .ok (List.replicate n.toNat 1)

/-- The value returned by `run_random_walk`: the accumulated diagnostics
frame and the initial and final position frames. -/
structure SimulationResult where
  diags : List DiagnosticRecord
  initial_positions : List (ℚ × ℚ)
  final_positions : List (ℚ × ℚ)

/-- The loop `for step in range(1, number_steps)` of `run_random_walk`:
`move()` then append `diagnostics()`, `k` times. -/
def run_loop : ℕ → Particles → List DiagnosticRecord →
    Except String (Particles × List DiagnosticRecord)
  | 0, p, diags => .ok (p, diags)
  | Nat.succ k, p, diags => do
    let p1 ← p.move
    let d ← p1.diagnostics
    run_loop k p1 (diags ++ [d])

/-- `run_random_walk`: construct the space, the generator and the ensemble
(all particles at the domain center, `np.ones((n,)) * length / 2`), record
the initial positions and the step-0 diagnostics, run
`range(1, number_steps)` move/diagnose cycles, record the final positions.
The notebook builds an unseeded `np.random.RandomState()` inside the
function — it accepts no seed or generator argument, so a caller cannot
choose the draw stream; the stream that unseeded generator will yield is
the explicit `rng` argument here, making the ambient randomness an input
of the model.  The function performs no parameter validation. -/
def run_random_walk (rng : RNG) (length_x length_y : ℚ)
    (number_particles number_steps : ℤ) (step_length : ℚ) :
    Except String SimulationResult := do
  let space : PeriodicSpace := ⟨length_x, length_y⟩
  let ones ← np_ones number_particles
  let particles : Particles :=
    Particles.init rng space
      (some (ones.map (fun v => v * length_x / 2)))
      (some (ones.map (fun v => v * length_y / 2)))
      step_length
  let initial_positions ← particles.positions
  let diags0 ← particles.diagnostics
  let res ← run_loop (number_steps - 1).toNat particles [diags0]
  let final_positions ← res.1.positions
  .ok ⟨res.2, initial_positions, final_positions⟩

/-! ## Helper lemmas about the embedded operations -/

theorem np_mod_eq_fract (x L : ℚ) (hL : L ≠ 0) :
    np_mod x L = L * Int.fract (x / L) := by
  rw [np_mod, Int.fract, mul_sub, mul_comm L (x / L), div_mul_cancel₀ x hL]

theorem np_mod_nonneg (x L : ℚ) (hL : 0 < L) : 0 ≤ np_mod x L := by
  rw [np_mod_eq_fract x L hL.ne']
  exact mul_nonneg hL.le (Int.fract_nonneg _)

theorem np_mod_lt (x L : ℚ) (hL : 0 < L) : np_mod x L < L := by
  rw [np_mod_eq_fract x L hL.ne']
  exact mul_lt_of_lt_one_right hL (Int.fract_lt_one _)

theorem np_mod_eq_self (x L : ℚ) (hL : 0 < L) (h0 : 0 ≤ x) (h1 : x < L) :
    np_mod x L = x := by
  have hfl : ⌊x / L⌋ = 0 := by
    rw [Int.floor_eq_zero_iff]
    exact ⟨div_nonneg h0 hL.le, (div_lt_one hL).mpr h1⟩
  rw [np_mod, hfl]
  push_cast
  ring

theorem RNG.normal_fst_length (r : RNG) (n : ℕ) : ((r.normal n).1).length = n := by
  simp [RNG.normal]

theorem exceptOkBind {α β : Type} (a : α) (f : α → Except String β) :
    (Except.ok a >>= f) = f a := rfl

theorem Particles.move_eq (p : Particles) (xs ys : List ℚ)
    (hx : p.x = some xs) (hy : p.y = some ys) :
    p.move = .ok ⟨((p.rng.normal xs.length).2.normal ys.length).2, p.space,
      some ((List.zipWith (fun a d => a + p.step_length * d) xs
        (p.rng.normal xs.length).1).map (fun v => np_mod v p.space.length_x)),
      some ((List.zipWith (fun a d => a + p.step_length * d) ys
        ((p.rng.normal xs.length).2.normal ys.length).1).map
          (fun v => np_mod v p.space.length_y)),
      p.step_length, p.steps_done + 1⟩ := by
  unfold Particles.move
  rw [hx, hy]
  rfl

theorem Particles.diagnostics_eq (p : Particles) (xs ys : List ℚ)
    (hx : p.x = some xs) (hy : p.y = some ys) :
    p.diagnostics = .ok ⟨p.steps_done, listMean xs, listMean ys,
      np_var xs + np_var ys⟩ := by
  unfold Particles.diagnostics Particles.center_of_mass Particles.moment_of_inertia
  rw [hx, hy]
  rfl

theorem Particles.positions_eq (p : Particles) (xs ys : List ℚ)
    (hx : p.x = some xs) (hy : p.y = some ys) (hlen : xs.length = ys.length) :
    p.positions = .ok (xs.zip ys) := by
  unfold Particles.positions
  rw [hx, hy]
  show (if xs.length = ys.length then Except.ok (xs.zip ys) else
    Except.error "ValueError: arrays must all be same length") = Except.ok (xs.zip ys)
  rw [if_pos hlen]

theorem Particles.move_spec (p : Particles) (xs ys : List ℚ)
    (hx : p.x = some xs) (hy : p.y = some ys) :
    ∃ (q : Particles) (xs' ys' : List ℚ),
      p.move = .ok q ∧ q.x = some xs' ∧ q.y = some ys' ∧
      xs'.length = xs.length ∧ ys'.length = ys.length ∧
      q.space = p.space ∧ q.step_length = p.step_length ∧
      q.steps_done = p.steps_done + 1 ∧
      (∀ v ∈ xs', ∃ w, v = np_mod w p.space.length_x) ∧
      (∀ v ∈ ys', ∃ w, v = np_mod w p.space.length_y) := by
  refine ⟨_, _, _, Particles.move_eq p xs ys hx hy, rfl, rfl, ?_, ?_,
    rfl, rfl, rfl, ?_, ?_⟩
  · simp [List.length_zipWith, RNG.normal_fst_length]
  · simp [List.length_zipWith, RNG.normal_fst_length]
  · intro v hv
    rcases List.mem_map.mp hv with ⟨w, _, rfl⟩
    exact ⟨w, rfl⟩
  · intro v hv
    rcases List.mem_map.mp hv with ⟨w, _, rfl⟩
    exact ⟨w, rfl⟩

theorem run_loop_spec : ∀ (k : ℕ) (p : Particles) (acc : List DiagnosticRecord)
    (xs ys : List ℚ), p.x = some xs → p.y = some ys →
    ∃ (q : Particles) (xs' ys' : List ℚ) (ds : List DiagnosticRecord),
      run_loop k p acc = .ok (q, acc ++ ds) ∧
      ds.map DiagnosticRecord.step = List.range' (p.steps_done + 1) k ∧
      q.x = some xs' ∧ q.y = some ys' ∧
      xs'.length = xs.length ∧ ys'.length = ys.length ∧
      q.steps_done = p.steps_done + k ∧
      q.space = p.space ∧ q.step_length = p.step_length
  | 0, p, acc, xs, ys, hx, hy =>
    ⟨p, xs, ys, [], by simp [run_loop], by simp, hx, hy, rfl, rfl, by simp, rfl, rfl⟩
  | Nat.succ k, p, acc, xs, ys, hx, hy => by
    obtain ⟨p1, xs1, ys1, hmove, hx1, hy1, hlx1, hly1, hsp1, hsl1, hsd1, -, -⟩ :=
      Particles.move_spec p xs ys hx hy
    have hd := Particles.diagnostics_eq p1 xs1 ys1 hx1 hy1
    obtain ⟨q, xs', ys', ds', hrun, hds', hqx, hqy, hlx', hly', hsd', hsp', hsl'⟩ :=
      run_loop_spec k p1
        (acc ++ [⟨p1.steps_done, listMean xs1, listMean ys1, np_var xs1 + np_var ys1⟩])
        xs1 ys1 hx1 hy1
    refine ⟨q, xs', ys',
      (⟨p1.steps_done, listMean xs1, listMean ys1, np_var xs1 + np_var ys1⟩ :
        DiagnosticRecord) :: ds', ?_, ?_, hqx, hqy,
      hlx'.trans hlx1, hly'.trans hly1, by omega, hsp'.trans hsp1, hsl'.trans hsl1⟩
    · show (do
        let p1 ← p.move
        let d ← p1.diagnostics
        run_loop k p1 (acc ++ [d])) = _
      rw [hmove, exceptOkBind, hd, exceptOkBind, hrun]
      simp
    · rw [List.map_cons, hds', hsd1, List.range'_succ]

theorem run_random_walk_spec (rng : RNG) (lx ly : ℚ) (np ns : ℤ) (sl : ℚ)
    (hnp : 0 ≤ np) :
    ∃ r : SimulationResult, run_random_walk rng lx ly np ns sl = .ok r ∧
      r.diags.map DiagnosticRecord.step = List.range ((ns - 1).toNat + 1) ∧
      r.diags.length = (ns - 1).toNat + 1 := by
  have hones : np_ones np = .ok (List.replicate np.toNat 1) := by
    rw [np_ones, if_neg (not_lt.mpr hnp)]
  have hlen0 : ((List.replicate np.toNat (1:ℚ)).map (fun v => v * lx / 2)).length =
      ((List.replicate np.toNat (1:ℚ)).map (fun v => v * ly / 2)).length := by
    simp
  have hpos0 : (Particles.init rng ⟨lx, ly⟩
      (some ((List.replicate np.toNat (1:ℚ)).map (fun v => v * lx / 2)))
      (some ((List.replicate np.toNat (1:ℚ)).map (fun v => v * ly / 2))) sl).positions =
      .ok (((List.replicate np.toNat (1:ℚ)).map (fun v => v * lx / 2)).zip
        ((List.replicate np.toNat (1:ℚ)).map (fun v => v * ly / 2))) :=
    Particles.positions_eq _ _ _ rfl rfl hlen0
  have hd0 : (Particles.init rng ⟨lx, ly⟩
      (some ((List.replicate np.toNat (1:ℚ)).map (fun v => v * lx / 2)))
      (some ((List.replicate np.toNat (1:ℚ)).map (fun v => v * ly / 2))) sl).diagnostics =
      .ok ⟨0, listMean ((List.replicate np.toNat (1:ℚ)).map (fun v => v * lx / 2)),
        listMean ((List.replicate np.toNat (1:ℚ)).map (fun v => v * ly / 2)),
        np_var ((List.replicate np.toNat (1:ℚ)).map (fun v => v * lx / 2)) +
          np_var ((List.replicate np.toNat (1:ℚ)).map (fun v => v * ly / 2))⟩ :=
    Particles.diagnostics_eq _ _ _ rfl rfl
  obtain ⟨q, xs', ys', ds, hrun, hds, hqx, hqy, hlx', hly', hsd, hsp, hsl⟩ :=
    run_loop_spec (ns - 1).toNat
      (Particles.init rng ⟨lx, ly⟩
        (some ((List.replicate np.toNat (1:ℚ)).map (fun v => v * lx / 2)))
        (some ((List.replicate np.toNat (1:ℚ)).map (fun v => v * ly / 2))) sl)
      [⟨0, listMean ((List.replicate np.toNat (1:ℚ)).map (fun v => v * lx / 2)),
        listMean ((List.replicate np.toNat (1:ℚ)).map (fun v => v * ly / 2)),
        np_var ((List.replicate np.toNat (1:ℚ)).map (fun v => v * lx / 2)) +
          np_var ((List.replicate np.toNat (1:ℚ)).map (fun v => v * ly / 2))⟩]
      _ _ rfl rfl
  have hds2 : ds.map DiagnosticRecord.step = List.range' 1 (ns - 1).toNat := hds
  have hposq : q.positions = .ok (xs'.zip ys') :=
    Particles.positions_eq q xs' ys' hqx hqy (by rw [hlx', hly']; exact hlen0)
  have hdslen : ds.length = (ns - 1).toNat := by
    have := congrArg List.length hds2
    simpa using this
  refine ⟨⟨(⟨0, listMean ((List.replicate np.toNat (1:ℚ)).map (fun v => v * lx / 2)),
        listMean ((List.replicate np.toNat (1:ℚ)).map (fun v => v * ly / 2)),
        np_var ((List.replicate np.toNat (1:ℚ)).map (fun v => v * lx / 2)) +
          np_var ((List.replicate np.toNat (1:ℚ)).map (fun v => v * ly / 2))⟩ :
        DiagnosticRecord) :: ds,
      ((List.replicate np.toNat (1:ℚ)).map (fun v => v * lx / 2)).zip
        ((List.replicate np.toNat (1:ℚ)).map (fun v => v * ly / 2)),
      xs'.zip ys'⟩, ?_, ?_, ?_⟩
  · unfold run_random_walk
    simp only [hones, exceptOkBind, hpos0, hd0, hrun, hposq, List.singleton_append]
  · simp only [List.map_cons, hds2]
    rw [List.range_eq_range', List.range'_succ]
  · simp [hdslen]

theorem list_map_sum_eq_range_sum (f : ℚ → ℚ) :
    ∀ l : List ℚ, (l.map f).sum = ∑ i ∈ Finset.range l.length, f (l.getD i 0)
  | [] => by simp
  | a :: l => by
    rw [List.map_cons, List.sum_cons, List.length_cons, Finset.sum_range_succ']
    simp only [List.getD_cons_succ, List.getD_cons_zero]
    rw [list_map_sum_eq_range_sum f l]
    ring

theorem np_var_eq_popVariance (xs : List ℚ) : np_var xs = popVariance xs := by
  unfold np_var popVariance
  simp only [listMean]
  rw [list_map_sum_eq_range_sum, List.length_map]

theorem zipWith_zero_mul :
    ∀ (xs dx : List ℚ), xs.length ≤ dx.length →
      List.zipWith (fun a d => a + 0 * d) xs dx = xs
  | [], _, _ => by simp
  | a :: xs, [], h => by simp at h
  | a :: xs, b :: dx, h => by
    rw [List.zipWith_cons_cons, zipWith_zero_mul xs dx (by simpa using h)]
    norm_num

theorem moveN_zero_step (xs ys : List ℚ) :
    ∀ (k : ℕ) (p : Particles), p.x = some xs → p.y = some ys →
    p.step_length = 0 → 0 < p.space.length_x → 0 < p.space.length_y →
    (∀ v ∈ xs, 0 ≤ v ∧ v < p.space.length_x) →
    (∀ v ∈ ys, 0 ≤ v ∧ v < p.space.length_y) →
    ∃ q, Particles.moveN k p = .ok q ∧ q.x = some xs ∧ q.y = some ys ∧
      q.steps_done = p.steps_done + k ∧ q.space = p.space ∧
      q.step_length = p.step_length
  | 0, p, hx, hy, _, _, _, _, _ =>
    ⟨p, by rw [Particles.moveN], hx, hy, by simp, rfl, rfl⟩
  | Nat.succ k, p, hx, hy, hsl, hlx, hly, hxin, hyin => by
    have hmove := Particles.move_eq p xs ys hx hy
    have hxs : (List.zipWith (fun a d => a + p.step_length * d) xs
        (p.rng.normal xs.length).1).map (fun v => np_mod v p.space.length_x) = xs := by
      have hz : List.zipWith (fun a d => a + p.step_length * d) xs
          (p.rng.normal xs.length).1 = xs := by
        rw [hsl]
        exact zipWith_zero_mul xs _ (by rw [RNG.normal_fst_length])
      rw [hz]
      rw [List.map_congr_left (fun v hv =>
        np_mod_eq_self v p.space.length_x hlx (hxin v hv).1 (hxin v hv).2)]
      exact List.map_id xs
    have hys : (List.zipWith (fun a d => a + p.step_length * d) ys
        ((p.rng.normal xs.length).2.normal ys.length).1).map
          (fun v => np_mod v p.space.length_y) = ys := by
      have hz : List.zipWith (fun a d => a + p.step_length * d) ys
          ((p.rng.normal xs.length).2.normal ys.length).1 = ys := by
        rw [hsl]
        exact zipWith_zero_mul ys _ (by rw [RNG.normal_fst_length])
      rw [hz]
      rw [List.map_congr_left (fun v hv =>
        np_mod_eq_self v p.space.length_y hly (hyin v hv).1 (hyin v hv).2)]
      exact List.map_id ys
    rw [hxs, hys] at hmove
    obtain ⟨q, hq, hqx, hqy, hqsd, hqsp, hqsl⟩ :=
      moveN_zero_step xs ys k
        ⟨((p.rng.normal xs.length).2.normal ys.length).2, p.space,
          some xs, some ys, p.step_length, p.steps_done + 1⟩
        rfl rfl hsl hlx hly hxin hyin
    refine ⟨q, ?_, hqx, hqy,
      by rw [hqsd]; show p.steps_done + 1 + k = p.steps_done + (k + 1); omega,
      hqsp, hqsl⟩
    show (do
      let p1 ← p.move
      Particles.moveN k p1) = _
    rw [hmove, exceptOkBind, hq]

theorem run_zero_stream_eq :
    run_random_walk ⟨fun _ => 0, 0⟩ 10 20 1 2 (1/2) =
      .ok ⟨[⟨0, 5, 10, 0⟩, ⟨1, 5, 10, 0⟩], [(5, 10)], [(5, 10)]⟩ := by
  norm_num [run_random_walk, np_ones, Particles.init, Particles.positions,
    Particles.diagnostics, Particles.center_of_mass, Particles.moment_of_inertia,
    run_loop, Particles.move, PeriodicSpace.normalize_positions, RNG.normal,
    np_mod, np_var, listMean, exceptOkBind]

theorem run_one_stream_eq :
    run_random_walk ⟨fun _ => 1, 0⟩ 10 20 1 2 (1/2) =
      .ok ⟨[⟨0, 5, 10, 0⟩, ⟨1, 11/2, 21/2, 0⟩], [(5, 10)], [(11/2, 21/2)]⟩ := by
  norm_num [run_random_walk, np_ones, Particles.init, Particles.positions,
    Particles.diagnostics, Particles.center_of_mass, Particles.moment_of_inertia,
    run_loop, Particles.move, PeriodicSpace.normalize_positions, RNG.normal,
    np_mod, np_var, listMean, exceptOkBind]

/-! ## Claim theorems -/

/-- C1: for equal-length rational inputs and strictly positive extents,
`PeriodicSpace.normalize_positions` returns element-wise values in
`[0, length_x) × [0, length_y)` (mathematical non-negative modulo), and in
particular `normalize(-0.1, 0.0)` with extents `10, 20` yields `(9.9, 0.0)`. -/
theorem normalize_positions_in_range :
    (∀ (s : PeriodicSpace) (xv yv : List ℚ), xv.length = yv.length →
      0 < s.length_x → 0 < s.length_y →
      (∀ v ∈ (s.normalize_positions xv yv).1, 0 ≤ v ∧ v < s.length_x) ∧
      (∀ v ∈ (s.normalize_positions xv yv).2, 0 ≤ v ∧ v < s.length_y)) ∧
    PeriodicSpace.normalize_positions ⟨10, 20⟩ [-1/10] [0] = ([99/10], [0]) := by
  constructor
  · intro s xv yv _ hlx hly
    constructor
    · intro v hv
      rcases List.mem_map.mp hv with ⟨w, -, rfl⟩
      exact ⟨np_mod_nonneg w s.length_x hlx, np_mod_lt w s.length_x hlx⟩
    · intro v hv
      rcases List.mem_map.mp hv with ⟨w, -, rfl⟩
      exact ⟨np_mod_nonneg w s.length_y hly, np_mod_lt w s.length_y hly⟩
  · unfold PeriodicSpace.normalize_positions
    norm_num [np_mod]

/-- Witness for C1 at the concrete input of the claim. -/
theorem normalize_positions_in_range_witness :
    (∀ v ∈ (PeriodicSpace.normalize_positions ⟨10, 20⟩ [-1/10] [0]).1,
      0 ≤ v ∧ v < (10:ℚ)) ∧
    (∀ v ∈ (PeriodicSpace.normalize_positions ⟨10, 20⟩ [-1/10] [0]).2,
      0 ≤ v ∧ v < (20:ℚ)) :=
  normalize_positions_in_range.1 ⟨10, 20⟩ [-1/10] [0] rfl (by norm_num) (by norm_num)

/-- C2: for any ensemble whose positions are present and index-aligned
(equal lengths, the data-model invariant) over a domain with strictly
positive extents, `move` succeeds and afterwards `x` and `y` still have
equal length and every element lies in `[0, length_x)` / `[0, length_y)`,
for every `step_length` and every draw stream. -/
theorem move_preserves_invariant (p : Particles) (xs ys : List ℚ)
    (hx : p.x = some xs) (hy : p.y = some ys) (hlen : xs.length = ys.length)
    (hlx : 0 < p.space.length_x) (hly : 0 < p.space.length_y) :
    ∃ (q : Particles) (xs' ys' : List ℚ),
      p.move = .ok q ∧ q.x = some xs' ∧ q.y = some ys' ∧
      xs'.length = ys'.length ∧
      (∀ v ∈ xs', 0 ≤ v ∧ v < p.space.length_x) ∧
      (∀ v ∈ ys', 0 ≤ v ∧ v < p.space.length_y) := by
  obtain ⟨q, xs', ys', hmove, hqx, hqy, hl1, hl2, hsp, hsl, hsd, hmx, hmy⟩ :=
    Particles.move_spec p xs ys hx hy
  refine ⟨q, xs', ys', hmove, hqx, hqy, by rw [hl1, hl2, hlen], ?_, ?_⟩
  · intro v hv
    obtain ⟨w, rfl⟩ := hmx v hv
    exact ⟨np_mod_nonneg w _ hlx, np_mod_lt w _ hlx⟩
  · intro v hv
    obtain ⟨w, rfl⟩ := hmy v hv
    exact ⟨np_mod_nonneg w _ hly, np_mod_lt w _ hly⟩

/-- Witness for C2: a one-particle ensemble on the default-sized box. -/
theorem move_preserves_invariant_witness :
    ∃ (q : Particles) (xs' ys' : List ℚ),
      (⟨⟨fun _ => 0, 0⟩, ⟨10, 20⟩, some [1], some [2], 1/2, 0⟩ : Particles).move =
        .ok q ∧
      q.x = some xs' ∧ q.y = some ys' ∧ xs'.length = ys'.length ∧
      (∀ v ∈ xs', 0 ≤ v ∧ v < (10:ℚ)) ∧ (∀ v ∈ ys', 0 ≤ v ∧ v < (20:ℚ)) :=
  move_preserves_invariant _ [1] [2] rfl rfl rfl (by norm_num) (by norm_num)

/-- C6 counterexample: the notebook's `run_random_walk` accepts no seed or
generator argument — the `np.random.RandomState()` it constructs internally
is unseeded and consumes whatever entropy the environment supplies — so two
invocations with identical parameters need not produce identical results:
an invocation whose generator yields all-zero draws and one whose generator
yields all-one draws return different diagnostics and final positions. -/
theorem run_seed_counterexample :
    run_random_walk ⟨fun _ => 0, 0⟩ 10 20 1 2 (1/2) ≠
      run_random_walk ⟨fun _ => 1, 0⟩ 10 20 1 2 (1/2) := by
  rw [run_zero_stream_eq, run_one_stream_eq]
  norm_num

/-- C6 (amended): `run_random_walk` exposes no seed, so its output is
reproducible only relative to the draw stream of the internally
constructed unseeded generator: invocations with identical parameters but
different ambient entropy can produce different `final_positions` and
`diagnostics`, while two invocations whose generators carry the same
stream and consumed-draw counter produce identical results at the claim's
parameters `(10, 20, 100, 100, 0.5)`. -/
theorem run_random_walk_entropy_dependent :
    (run_random_walk ⟨fun _ => 0, 0⟩ 10 20 1 2 (1/2) ≠
      run_random_walk ⟨fun _ => 1, 0⟩ 10 20 1 2 (1/2)) ∧
    (∀ r1 r2 : RNG, (∀ n, r1.seq n = r2.seq n) → r1.counter = r2.counter →
      run_random_walk r1 10 20 100 100 (1/2) =
        run_random_walk r2 10 20 100 100 (1/2)) := by
  constructor
  · rw [run_zero_stream_eq, run_one_stream_eq]
    norm_num
  · intro r1 r2 hseq hctr
    have h : r1 = r2 := by
      cases r1
      cases r2
      congr 1
      exact funext hseq
    rw [h]

/-- Witness for the amended C6 at a concrete stream. -/
theorem run_random_walk_entropy_dependent_witness :
    run_random_walk ⟨fun _ => 0, 0⟩ 10 20 100 100 (1/2) =
      run_random_walk ⟨fun _ => 0, 0⟩ 10 20 100 100 (1/2) :=
  run_random_walk_entropy_dependent.2 ⟨fun _ => 0, 0⟩ ⟨fun _ => 0, 0⟩ (fun _ => rfl) rfl

/-- C9: with exactly one particle, `moment_of_inertia` is exactly `0`,
whatever the position and the step counter. -/
theorem single_particle_zero_inertia (p : Particles) (a b : ℚ)
    (hx : p.x = some [a]) (hy : p.y = some [b]) :
    p.moment_of_inertia = .ok 0 := by
  unfold Particles.moment_of_inertia
  rw [hx, hy]
  have h1 : ∀ c : ℚ, np_var [c] = 0 := by
    intro c
    simp [np_var, listMean]
  show Except.ok (np_var [a] + np_var [b]) = Except.ok 0
  rw [h1, h1, add_zero]

/-- Witness for C9: one particle at `(3, 5)` after `7` steps. -/
theorem single_particle_zero_inertia_witness :
    (⟨⟨fun _ => 0, 0⟩, ⟨10, 20⟩, some [3], some [5], 1/2, 7⟩ :
      Particles).moment_of_inertia = .ok 0 :=
  single_particle_zero_inertia _ 3 5 rfl rfl

/-- C10: an ensemble built with the positions left at their default `None`
is unusable: `move`, `center_of_mass`, `moment_of_inertia` and `positions`
all fail instead of returning a value. -/
theorem default_positions_unusable (rng : RNG) :
    (Particles.initDefault rng).move =
      .error "AttributeError: NoneType object has no attribute shape" ∧
    (Particles.initDefault rng).center_of_mass =
      .error "AttributeError: NoneType object has no attribute mean" ∧
    (Particles.initDefault rng).moment_of_inertia =
      .error "AttributeError: NoneType object has no attribute var" ∧
    (Particles.initDefault rng).positions =
      .error "AttributeError: NoneType object is not array-like" :=
  ⟨rfl, rfl, rfl, rfl⟩

/-- C3 counterexample: `run_random_walk` called with non-positive
`number_steps` (`0`) and negative `step_length` (`-0.5`) does not raise a
validation error — it completes and returns a result. -/
theorem run_no_validation_counterexample :
    (run_random_walk ⟨fun _ => 0, 0⟩ 10 20 1 0 (-1/2)).isOk = true := by
  obtain ⟨r, hr, -, -⟩ :=
    run_random_walk_spec ⟨fun _ => 0, 0⟩ 10 20 1 0 (-1/2) (by norm_num)
  rw [hr]
  rfl

/-- C3 (amended): `run_random_walk` performs no parameter validation.  For
every extents, step length and step count, a run with non-negative particle
count completes and returns a result; only a negative particle count fails,
and that failure is numpy's `ValueError` from building the initial position
array — raised after the domain and the random source are constructed, not
a validation error raised before any state exists. -/
theorem run_random_walk_no_validation (rng : RNG) (lx ly : ℚ) (np ns : ℤ)
    (sl : ℚ) :
    (0 ≤ np → (run_random_walk rng lx ly np ns sl).isOk = true) ∧
    (np < 0 → run_random_walk rng lx ly np ns sl =
      .error "ValueError: negative dimensions are not allowed") := by
  constructor
  · intro hnp
    obtain ⟨r, hr, -, -⟩ := run_random_walk_spec rng lx ly np ns sl hnp
    rw [hr]
    rfl
  · intro hnp
    have h : np_ones np = .error "ValueError: negative dimensions are not allowed" := by
      rw [np_ones, if_pos hnp]
    unfold run_random_walk
    simp only [h]
    rfl

/-- Witness for the amended C3. -/
theorem run_random_walk_no_validation_witness :
    (run_random_walk ⟨fun _ => 0, 0⟩ 5 5 2 3 1).isOk = true ∧
    run_random_walk ⟨fun _ => 0, 0⟩ 5 5 (-2) 3 1 =
      .error "ValueError: negative dimensions are not allowed" :=
  ⟨(run_random_walk_no_validation ⟨fun _ => 0, 0⟩ 5 5 2 3 1).1 (by norm_num),
   (run_random_walk_no_validation ⟨fun _ => 0, 0⟩ 5 5 (-2) 3 1).2 (by norm_num)⟩

/-- C4 counterexample: constructing a `Particles` ensemble with `x` of
length 1 and `y` of length 2 succeeds — the mismatched sequences are stored
as given, and the error surfaces only later (here from `positions()`), not
at ensemble construction. -/
theorem particles_init_no_shape_check_counterexample :
    (Particles.init ⟨fun _ => 0, 0⟩ ⟨10, 20⟩ (some [0]) (some [0, 1]) (1/2)).x =
      some [0] ∧
    (Particles.init ⟨fun _ => 0, 0⟩ ⟨10, 20⟩ (some [0]) (some [0, 1]) (1/2)).y =
      some [0, 1] ∧
    (Particles.init ⟨fun _ => 0, 0⟩ ⟨10, 20⟩ (some [0]) (some [0, 1]) (1/2)).positions =
      .error "ValueError: arrays must all be same length" :=
  ⟨rfl, rfl, rfl⟩

/-- C4 (amended): `Particles.__init__` performs no shape validation:
construction always succeeds, storing `x` and `y` exactly as supplied with
`steps_done = 0`; an unequal-length pair is detected only later, when
`positions()` raises pandas' length mismatch error. -/
theorem particles_init_unvalidated (rng : RNG) (s : PeriodicSpace)
    (x y : Option (List ℚ)) (sl : ℚ) :
    (Particles.init rng s x y sl).x = x ∧
    (Particles.init rng s x y sl).y = y ∧
    (Particles.init rng s x y sl).steps_done = 0 ∧
    (∀ xs ys, x = some xs → y = some ys → xs.length ≠ ys.length →
      (Particles.init rng s x y sl).positions =
        .error "ValueError: arrays must all be same length") := by
  refine ⟨rfl, rfl, rfl, ?_⟩
  intro xs ys hx hy hne
  subst hx
  subst hy
  show (if xs.length = ys.length then Except.ok (xs.zip ys) else
    Except.error "ValueError: arrays must all be same length") =
    Except.error "ValueError: arrays must all be same length"
  rw [if_neg hne]

/-- Witness for the amended C4. -/
theorem particles_init_unvalidated_witness :
    (Particles.init ⟨fun _ => 0, 0⟩ ⟨10, 20⟩ (some [1]) (some [2, 3]) 1).x =
      some [1] ∧
    (Particles.init ⟨fun _ => 0, 0⟩ ⟨10, 20⟩ (some [1]) (some [2, 3]) 1).y =
      some [2, 3] ∧
    (Particles.init ⟨fun _ => 0, 0⟩ ⟨10, 20⟩ (some [1]) (some [2, 3]) 1).steps_done = 0 ∧
    (Particles.init ⟨fun _ => 0, 0⟩ ⟨10, 20⟩ (some [1]) (some [2, 3]) 1).positions =
      .error "ValueError: arrays must all be same length" :=
  ⟨(particles_init_unvalidated ⟨fun _ => 0, 0⟩ ⟨10, 20⟩ (some [1]) (some [2, 3]) 1).1,
   (particles_init_unvalidated ⟨fun _ => 0, 0⟩ ⟨10, 20⟩ (some [1]) (some [2, 3]) 1).2.1,
   (particles_init_unvalidated ⟨fun _ => 0, 0⟩ ⟨10, 20⟩ (some [1]) (some [2, 3]) 1).2.2.1,
   (particles_init_unvalidated ⟨fun _ => 0, 0⟩ ⟨10, 20⟩ (some [1]) (some [2, 3]) 1).2.2.2
     [1] [2, 3] rfl rfl (by decide)⟩

/-- C5: for `number_steps ≥ 1` (and a non-negative particle count, needed
for the run to start), the run succeeds, its diagnostics sequence has
length exactly `number_steps`, its `step` fields are strictly increasing
(no reordering, skipping or duplication), and for `number_steps = 1` it is
the single `step = 0` record. -/
theorem run_diagnostics_ordering (rng : RNG) (lx ly : ℚ) (np ns : ℤ) (sl : ℚ)
    (hnp : 0 ≤ np) (hns : 1 ≤ ns) :
    ∃ r : SimulationResult, run_random_walk rng lx ly np ns sl = .ok r ∧
      (r.diags.length : ℤ) = ns ∧
      List.Pairwise (fun a b => a.step < b.step) r.diags ∧
      (ns = 1 → ∃ d, r.diags = [d] ∧ d.step = 0) := by
  obtain ⟨r, hr, hmap, hlen⟩ := run_random_walk_spec rng lx ly np ns sl hnp
  refine ⟨r, hr, ?_, ?_, ?_⟩
  · rw [hlen]
    omega
  · have h := List.pairwise_lt_range ((ns - 1).toNat + 1)
    rw [← hmap] at h
    exact List.pairwise_map.mp h
  · intro h1
    subst h1
    have hlen1 : r.diags.length = 1 := by
      rw [hlen]
      rfl
    obtain ⟨d, hd⟩ := List.length_eq_one.mp hlen1
    refine ⟨d, hd, ?_⟩
    rw [hd] at hmap
    have hm2 : [d.step] = [0] := hmap
    simpa using hm2

/-- Witness for C5: three steps of a two-particle run. -/
theorem run_diagnostics_ordering_witness :
    ∃ r : SimulationResult,
      run_random_walk ⟨fun _ => 0, 0⟩ 10 20 2 3 (1/2) = .ok r ∧
      (r.diags.length : ℤ) = 3 ∧
      List.Pairwise (fun a b => a.step < b.step) r.diags ∧
      ((3:ℤ) = 1 → ∃ d, r.diags = [d] ∧ d.step = 0) :=
  run_diagnostics_ordering ⟨fun _ => 0, 0⟩ 10 20 2 3 (1/2) (by norm_num) (by norm_num)

/-- C7: for a non-empty ensemble, `moment_of_inertia()` equals the
population variance (`ddof = 0`) of `x` plus the population variance of
`y`, the mean squared deviation from the center of mass summed over the
two axes (`popVariance` is written from the spec's words). -/
theorem moment_of_inertia_is_population_variance (p : Particles)
    (xs ys : List ℚ) (hx : p.x = some xs) (hy : p.y = some ys)
    (_hxs : xs ≠ []) (_hys : ys ≠ []) :
    p.moment_of_inertia = .ok (popVariance xs + popVariance ys) := by
  unfold Particles.moment_of_inertia
  rw [hx, hy]
  show Except.ok (np_var xs + np_var ys) = _
  rw [np_var_eq_popVariance, np_var_eq_popVariance]

/-- Witness for C7: positions `x = [1, 3]`, `y = [2]`. -/
theorem moment_of_inertia_is_population_variance_witness :
    (⟨⟨fun _ => 0, 0⟩, ⟨10, 20⟩, some [1, 3], some [2], 1/2, 0⟩ :
      Particles).moment_of_inertia = .ok (popVariance [1, 3] + popVariance [2]) :=
  moment_of_inertia_is_population_variance _ [1, 3] [2] rfl rfl
    (List.cons_ne_nil _ _) (List.cons_ne_nil _ _)

/-- C8: with `step_length = 0` and positions already inside a positive
domain, any number `k` of successive `move()` calls leaves `x` and `y`
exactly unchanged while `steps_done` ends at `k` (one increment per
call, starting from `0`). -/
theorem zero_step_length_stable (p : Particles) (xs ys : List ℚ) (k : ℕ)
    (hx : p.x = some xs) (hy : p.y = some ys) (hsl : p.step_length = 0)
    (hlx : 0 < p.space.length_x) (hly : 0 < p.space.length_y)
    (hxin : ∀ v ∈ xs, 0 ≤ v ∧ v < p.space.length_x)
    (hyin : ∀ v ∈ ys, 0 ≤ v ∧ v < p.space.length_y)
    (h0 : p.steps_done = 0) :
    ∃ q, Particles.moveN k p = .ok q ∧ q.x = some xs ∧ q.y = some ys ∧
      q.steps_done = k := by
  obtain ⟨q, hq, hqx, hqy, hsd, -, -⟩ :=
    moveN_zero_step xs ys k p hx hy hsl hlx hly hxin hyin
  exact ⟨q, hq, hqx, hqy, by omega⟩

/-- Witness for C8: five zero-length steps of a one-particle ensemble. -/
theorem zero_step_length_stable_witness :
    ∃ q, Particles.moveN 5
        (⟨⟨fun _ => 0, 0⟩, ⟨10, 20⟩, some [1], some [2], 0, 0⟩ : Particles) =
      .ok q ∧ q.x = some [1] ∧ q.y = some [2] ∧ q.steps_done = 5 :=
  zero_step_length_stable _ [1] [2] 5 rfl rfl rfl (by norm_num) (by norm_num)
    (by norm_num) (by norm_num) rfl
